import Mathlib

/-!
# Razer Nari headset driver (`driver/razernari_driver.c`)

A shallow embedding of the report builders, the transport helpers, the sysfs
attribute handlers and the probe routine of the Razer Nari driver, together
with the properties established about them.

Conventions of the embedding.

* A C `unsigned char` is a `Nat` below 256; a store into an `unsigned char`
  object is written `% 256`.  `unsigned short` is `% 65536`, `unsigned int`
  is `% 2 ^ 32`, `size_t` is `% 2 ^ 64`.  `int` and `ssize_t` results are
  `Int`; a `size_t` returned as `ssize_t` is converted by `to_ssize_t`.
* Calls into the kernel (USB control transfer, HID raw request, `msleep`,
  mutex operations, allocation) are not part of the driver.  Their results are
  inputs of the embedded function, and every call is recorded as an `Event`
  in the trace that the function returns.
* Log output (`pr_info`, `pr_err`, `printk`) has no effect on state or results
  and is left out.
-/

namespace RazerNari

/-! ## Constants and types of `razernari_driver.h` -/

def USB_DEVICE_ID_RAZER_NARI_ULTIMATE_WIRELESS : Nat := 0x051A
def USB_DEVICE_ID_RAZER_NARI_ULTIMATE_USB : Nat := 0x051B
def USB_DEVICE_ID_RAZER_NARI_WIRELESS : Nat := 0x051C
def USB_DEVICE_ID_RAZER_NARI_USB : Nat := 0x051D

def USB_INTERFACE_PROTOCOL_NONE : Nat := 0

def RAZER_NARI_REPORT_LEN : Nat := 64

/-- The request report: `unsigned char arguments[64]; unsigned char length;`. -/
structure razer_nari_request_report where
  arguments : List Nat
  length : Nat
deriving DecidableEq, Repr

/-- The per-device data.  `lock` is the state of `struct mutex lock`
(`true` when held).  The two pointers `usb_dev` and `hid_dev` and the unused
`name` carry no data of their own and are not represented. -/
structure razer_nari_device where
  lock : Bool
  usb_interface_protocol : Nat
  usb_pid : Nat
  usb_vid : Nat
  red : Nat
  green : Nat
  blue : Nat
  brigthness : Nat
  data : List Nat
deriving DecidableEq, Repr

/-- The errno values used by the driver.  They come from the kernel headers,
which are not part of the driver sources, and are therefore parameters of the
embedding. -/
structure Errno where
  EIO : Nat
  EINVAL : Nat
  ENOMEM : Nat
deriving DecidableEq, Repr

/-- The values the Linux kernel gives to the three errno constants. -/
def linux_errno : Errno := ⟨5, 22, 12⟩

/-! ## Report builders -/

/-- A store `report.arguments[i] = v` into the `unsigned char` array. -/
def set_argument (report : razer_nari_request_report) (i : Nat) (v : Nat) :
    razer_nari_request_report :=
  { report with arguments := report.arguments.set i (v % 256) }

/-- Function `get_nari_request_report`: the zeroed template with the length
and the five fixed header bytes. -/
def get_nari_request_report : razer_nari_request_report :=
  -- memset(&report, 0, sizeof(struct razer_nari_request_report));
  let report : razer_nari_request_report := ⟨List.replicate 64 0, 0⟩
  let report := { report with length := 64 % 256 }
  let report := set_argument report 0 0xFF
  let report := set_argument report 1 0x0A
  let report := set_argument report 2 0x00
  let report := set_argument report 3 0xFF
  let report := set_argument report 4 0x04
  report

/-- Function `get_nari_brightness_request_report (unsigned short brightness)`. -/
def get_nari_brightness_request_report (brightness : Nat) : razer_nari_request_report :=
  let report := get_nari_request_report
  let report := set_argument report 5 0x12
  let report := set_argument report 6 0xF1
  let report := set_argument report 7 0x03
  let report := set_argument report 8 0x71
  let report := set_argument report 9 brightness
  report

/-- Function `get_nari_color_request_report (unsigned short red, green, blue)`. -/
def get_nari_color_request_report (red green blue : Nat) : razer_nari_request_report :=
  let report := get_nari_request_report
  let report := set_argument report 5 0x12
  let report := set_argument report 6 0xF1
  let report := set_argument report 7 0x05
  let report := set_argument report 8 0x72
  let report := set_argument report 9 red
  let report := set_argument report 10 green
  let report := set_argument report 11 blue
  report

/-! ## Kernel calls recorded in the trace -/

/-- The calls into the kernel that the driver makes on behalf of a device.
`usb_control_msg` records the literal `value`, `index`, data buffer and `size`
of the SET_REPORT control transfer; `hid_hw_raw_request` records the report
number and length of the GET_REPORT feature request. -/
inductive Event where
  | mutex_lock : Event
  | mutex_unlock : Event
  | usb_control_msg (value index : Nat) (data : List Nat) (size : Nat) : Event
  | hid_hw_raw_request (reportnum len : Nat) : Event
  | msleep (msecs : Nat) : Event
deriving DecidableEq, Repr

/-! ## C integer conversions -/

/-- Value of a `char` object holding the byte `b`: with a signed `char` the
bytes from 0x80 on are negative. -/
def char_value (char_signed : Bool) (b : Nat) : Int :=
  if char_signed && decide (128 ≤ b) then (b : Int) - 256 else (b : Int)

/-- Conversion of an `int` value to `unsigned short`. -/
def to_unsigned_short (v : Int) : Nat := (v % 65536).toNat

/-- Conversion of an `int` value to `unsigned char`. -/
def to_unsigned_char (v : Int) : Nat := (v % 256).toNat

/-- Conversion of an `int` value to `unsigned int`. -/
def to_unsigned_int (v : Int) : Int := v % 2 ^ 32

/-- Conversion of a `size_t` value to `ssize_t` (64-bit, two's complement): the
values from 2^63 on become negative. -/
def to_ssize_t (count : Nat) : Int :=
  if count % 2 ^ 64 < 2 ^ 63 then ((count % 2 ^ 64 : Nat) : Int)
  else ((count % 2 ^ 64 : Nat) : Int) - 2 ^ 64

/-! ## Transport helpers -/

/-- Function `razer_nari_send_request_report_msg`.  `ret` is the value returned
by `hid_hw_raw_request` and `report` the content of the 64-byte buffer after
the request.  Returns the result, the device data and the trace. -/
def razer_nari_send_request_report_msg (ret : Int) (report : List Nat)
    (device : razer_nari_device) : Int × razer_nari_device × List Event :=
  let trace := [Event.hid_hw_raw_request 0x01 RAZER_NARI_REPORT_LEN]
  if ret ≠ (RAZER_NARI_REPORT_LEN : Int) then
    (ret, device, trace)
  else
    -- memcpy(&device->data[0], report, RAZER_NARI_REPORT_LEN);
    let device := { device with
      data := report.take RAZER_NARI_REPORT_LEN ++ device.data.drop RAZER_NARI_REPORT_LEN }
    (0, device, trace)

/-- Function `razer_nari_send_control_msg`.  `alloc_ok` tells whether `kmemdup`
returned a buffer and `len` is the value returned by `usb_control_msg`.
Returns the result and the trace. -/
def razer_nari_send_control_msg (E : Errno) (alloc_ok : Bool) (len : Int)
    (report : razer_nari_request_report) (skip : Nat) : Int × List Event :=
  let value : Nat := 0x03ff
  let index : Nat := 5
  let size : Nat := 64
  if !alloc_ok then
    (- ( E.ENOMEM : Int), [])
  else
    -- buf = kmemdup(report, size, GFP_KERNEL): the first 64 bytes of the struct
    let buf := report.arguments.take size
    let trace := [Event.usb_control_msg value index buf size]
    let trace :=
      if skip ≠ 1 then trace ++ [Event.msleep ((report.length * 15) % 2 ^ 32)] else trace
    let result : Int :=
      if len < 0 then len
      else if to_unsigned_int len ≠ (size : Int) then - ( E.EIO : Int) else 0
    (result, trace)

/-! ## Attribute handlers -/

/-- Function `razer_attr_write_matrix_effect_none` (device file `mode_none`). -/
def razer_attr_write_matrix_effect_none (E : Errno) (alloc_ok : Bool) (len : Int)
    (device : razer_nari_device) (count : Nat) : Int × razer_nari_device × List Event :=
  let report := get_nari_brightness_request_report 0
  let device := { device with lock := true }
  let sent := razer_nari_send_control_msg E alloc_ok len report 0
  let device := { device with lock := false }
  (to_ssize_t count, device, [Event.mutex_lock] ++ sent.2 ++ [Event.mutex_unlock])

/-- Function `razer_attr_write_request_report` (device file `request_report`). -/
def razer_attr_write_request_report (ret : Int) (report : List Nat)
    (device : razer_nari_device) (count : Nat) : Int × razer_nari_device × List Event :=
  let device := { device with lock := true }
  let polled := razer_nari_send_request_report_msg ret report device
  let device := { polled.2.1 with lock := false }
  (to_ssize_t count, device, [Event.mutex_lock] ++ polled.2.2 ++ [Event.mutex_unlock])

/-- Function `razer_attr_write_matrix_effect_static` (device file
`mode_static`).  `buf` holds the bytes written and `count` their number;
`char_signed` is the signedness of plain `char` on the target. -/
def razer_attr_write_matrix_effect_static (E : Errno) (char_signed : Bool)
    (alloc_ok : Bool) (len : Int) (device : razer_nari_device) (buf : List Nat)
    (count : Nat) : Int × razer_nari_device × List Event :=
  if count ≠ 3 ∧ count ≠ 4 then
    (- ( E.EINVAL : Int), device, [])
  else
    let rgb_report := get_nari_color_request_report
      (to_unsigned_short (char_value char_signed (buf.getD 0 0)))
      (to_unsigned_short (char_value char_signed (buf.getD 1 0)))
      (to_unsigned_short (char_value char_signed (buf.getD 2 0)))
    let rgb_report :=
      if count = 4 then
        set_argument rgb_report 12 (to_unsigned_char (char_value char_signed (buf.getD 3 0)))
      else rgb_report
    let device := { device with lock := true }
    let sent := razer_nari_send_control_msg E alloc_ok len rgb_report 0
    let device := { device with lock := false }
    (to_ssize_t count, device, [Event.mutex_lock] ++ sent.2 ++ [Event.mutex_unlock])

/-- Function `razer_attr_read_matrix_effect_static`: the three bytes stored
into `buf` and the returned size. -/
def razer_attr_read_matrix_effect_static (device : razer_nari_device) : List Nat × Int :=
  ([device.red % 256, device.green % 256, device.blue % 256], 3)

/-! ## Device setup -/

/-- Function `razer_nari_init`: `mutex_init` and the identity fields. -/
def razer_nari_init (dev : razer_nari_device) (protocol vid pid : Nat) : razer_nari_device :=
  { dev with
    lock := false
    usb_interface_protocol := protocol % 256
    usb_vid := vid % 65536
    usb_pid := pid % 65536 }

/-- The device data as `kzalloc` returns it. -/
def zeroed_device : razer_nari_device :=
  ⟨false, 0, 0, 0, 0, 0, 0, 0, List.replicate 64 0⟩

/-- Function `razer_nari_probe`.  `kzalloc_ok` tells whether the device data
could be allocated, `protocol`, `vid`, `pid` are the descriptor fields,
`create_ok` tells whether the `CREATE_DEVICE_FILE` lines (a macro of
`razercommon.h`) all fall through rather than leave for `exit_free`,
`parse_rc` and `start_rc` are the results of `hid_parse` and `hid_hw_start`,
`ret` and `report` are the outcome of the status request.  Returns the result,
the device data bound to the device (`none` when freed or never allocated) and
the trace. -/
def razer_nari_probe (E : Errno) (kzalloc_ok : Bool) (protocol vid pid : Nat)
    (create_ok : Bool) (parse_rc start_rc : Int) (ret : Int) (report : List Nat) :
    Int × Option razer_nari_device × List Event :=
  let retval : Int := 0
  if !kzalloc_ok then
    (- ( E.ENOMEM : Int), none, [])
  else
    let dev := razer_nari_init zeroed_device protocol vid pid
    if dev.usb_interface_protocol = USB_INTERFACE_PROTOCOL_NONE ∧ create_ok = false then
      (retval, none, [])
    else if parse_rc ≠ 0 then
      (retval, none, [])
    else if start_rc ≠ 0 then
      (retval, none, [])
    else
      let polled := razer_nari_send_request_report_msg ret report dev
      (0, some polled.2.1, polled.2.2)

/-! ## Observations on traces -/

/-- The control transfers of a trace: the data buffers handed to
`usb_control_msg`, in order. -/
def control_transfers : List Event → List (List Nat)
  | [] => []
  | Event.usb_control_msg _ _ data _ :: rest => data :: control_transfers rest
  | _ :: rest => control_transfers rest

/-- The settle delays of a trace: the arguments of `msleep`, in order. -/
def settle_delays : List Event → List Nat
  | [] => []
  | Event.msleep msecs :: rest => msecs :: settle_delays rest
  | _ :: rest => settle_delays rest

/-- Whether an event is an exchange with the device. -/
def is_exchange : Event → Bool
  | Event.usb_control_msg _ _ _ _ => true
  | Event.hid_hw_raw_request _ _ => true
  | _ => false

/-- Whether every exchange of the trace happens while the mutex is held,
starting from the mutex state `held`. -/
def exchanges_guarded : Bool → List Event → Bool
  | _, [] => true
  | _, Event.mutex_lock :: rest => exchanges_guarded true rest
  | _, Event.mutex_unlock :: rest => exchanges_guarded false rest
  | held, e :: rest => (!is_exchange e || held) && exchanges_guarded held rest

/-- The mutex state after the trace, starting from the state `held`. -/
def guard_after : Bool → List Event → Bool
  | held, [] => held
  | _, Event.mutex_lock :: rest => guard_after true rest
  | _, Event.mutex_unlock :: rest => guard_after false rest
  | held, _ :: rest => guard_after held rest

/-- A sample device: the data `razer_nari_init` sets up for a Nari Ultimate
(wireless) on the plain interface, vendor id 0x1532. -/
def bound_device : razer_nari_device :=
  razer_nari_init zeroed_device USB_INTERFACE_PROTOCOL_NONE 0x1532
    USB_DEVICE_ID_RAZER_NARI_ULTIMATE_WIRELESS

/-! ## Shape of the built reports -/

theorem get_nari_color_request_report_eq (red green blue : Nat) :
    get_nari_color_request_report red green blue =
      ⟨[0xFF, 0x0A, 0x00, 0xFF, 0x04, 0x12, 0xF1, 0x05, 0x72,
          red % 256, green % 256, blue % 256] ++ List.replicate 52 0, 64⟩ := by
  simp [get_nari_color_request_report, get_nari_request_report, set_argument,
    List.replicate, List.set]

theorem get_nari_brightness_request_report_eq (brightness : Nat) :
    get_nari_brightness_request_report brightness =
      ⟨[0xFF, 0x0A, 0x00, 0xFF, 0x04, 0x12, 0xF1, 0x03, 0x71, brightness % 256]
          ++ List.replicate 54 0, 64⟩ := by
  simp [get_nari_brightness_request_report, get_nari_request_report, set_argument,
    List.replicate, List.set]


theorem get_nari_request_report_length : get_nari_request_report.length = 64 := by
  simp [get_nari_request_report, set_argument]

/-- C1: for colour components in [0,255] the colour report has the argument
bytes FF 0A 00 FF 04 12 F1 05 72 at 0..8, then r, g, b at 9..11, zeroes at
12..63, and the length field 64. -/
theorem color_report_layout (r g b : Nat) (hr : r < 256) (hg : g < 256) (hb : b < 256) :
    (get_nari_color_request_report r g b).arguments =
        [0xFF, 0x0A, 0x00, 0xFF, 0x04, 0x12, 0xF1, 0x05, 0x72, r, g, b]
          ++ List.replicate 52 0 ∧
      (get_nari_color_request_report r g b).length = 64 := by
  rw [get_nari_color_request_report_eq, Nat.mod_eq_of_lt hr, Nat.mod_eq_of_lt hg,
    Nat.mod_eq_of_lt hb]
  exact ⟨rfl, rfl⟩

theorem color_report_layout_witness :
    (get_nari_color_request_report 0x10 0x20 0xFF).arguments =
        [0xFF, 0x0A, 0x00, 0xFF, 0x04, 0x12, 0xF1, 0x05, 0x72, 0x10, 0x20, 0xFF]
          ++ List.replicate 52 0 ∧
      (get_nari_color_request_report 0x10 0x20 0xFF).length = 64 :=
  color_report_layout 0x10 0x20 0xFF (by decide) (by decide) (by decide)

/-- C2: for a brightness level in [0,255] the brightness report has the
argument bytes FF 0A 00 FF 04 12 F1 03 71 at 0..8, the level at 9, zeroes at
10..63, and the length field 64. -/
theorem brightness_report_layout (b : Nat) (hb : b < 256) :
    (get_nari_brightness_request_report b).arguments =
        [0xFF, 0x0A, 0x00, 0xFF, 0x04, 0x12, 0xF1, 0x03, 0x71, b] ++ List.replicate 54 0 ∧
      (get_nari_brightness_request_report b).length = 64 := by
  rw [get_nari_brightness_request_report_eq, Nat.mod_eq_of_lt hb]
  exact ⟨rfl, rfl⟩

theorem brightness_report_layout_witness :
    (get_nari_brightness_request_report 0x80).arguments =
        [0xFF, 0x0A, 0x00, 0xFF, 0x04, 0x12, 0xF1, 0x03, 0x71, 0x80]
          ++ List.replicate 54 0 ∧
      (get_nari_brightness_request_report 0x80).length = 64 :=
  brightness_report_layout 0x80 (by decide)

/-! ## Result of the control transfer helper -/

theorem send_control_msg_alloc_failure (E : Errno) (len : Int)
    (report : razer_nari_request_report) (skip : Nat) :
    razer_nari_send_control_msg E false len report skip = (- ( E.ENOMEM : Int), []) := by
  simp [razer_nari_send_control_msg]

theorem send_control_msg_result_eq (E : Errno) (len : Int)
    (report : razer_nari_request_report) (skip : Nat) :
    (razer_nari_send_control_msg E true len report skip).1 =
      if len < 0 then len else if len % 2 ^ 32 ≠ 64 then - ( E.EIO : Int) else 0 := by
  simp [razer_nari_send_control_msg, to_unsigned_int]

theorem send_control_msg_trace_eq (E : Errno) (len : Int)
    (report : razer_nari_request_report) (skip : Nat) :
    (razer_nari_send_control_msg E true len report skip).2 =
      if skip ≠ 1 then
        [Event.usb_control_msg 0x03ff 5 (report.arguments.take 64) 64,
          Event.msleep ((report.length * 15) % 2 ^ 32)]
      else [Event.usb_control_msg 0x03ff 5 (report.arguments.take 64) 64] := by
  by_cases h : skip = 1 <;> simp [razer_nari_send_control_msg, h]

theorem send_control_msg_transfers (E : Errno) (alloc_ok : Bool) (len : Int)
    (report : razer_nari_request_report) (skip : Nat) :
    control_transfers (razer_nari_send_control_msg E alloc_ok len report skip).2 =
      if alloc_ok then [report.arguments.take 64] else [] := by
  cases alloc_ok
  · simp [razer_nari_send_control_msg, control_transfers]
  · rw [send_control_msg_trace_eq]
    by_cases h : skip = 1 <;> simp [h, control_transfers]

/-- C3: when the control transfer is reached (the transfer buffer could be
allocated) and returns the `int` value `len`, `razer_nari_send_control_msg`
returns 0 exactly when `len = 64`, returns `len` itself when `len < 0`, and
returns `-EIO` when `len >= 0` and `len != 64`; the transfer is issued exactly
once, and in no call more than once. -/
theorem send_control_msg_result (E : Errno) (hE : 0 < E.EIO)
    (report : razer_nari_request_report) (skip : Nat) (len : Int)
    (hlo : -2 ^ 31 ≤ len) (hhi : len < 2 ^ 31) :
    ((razer_nari_send_control_msg E true len report skip).1 = 0 ↔ len = 64) ∧
      (len < 0 → (razer_nari_send_control_msg E true len report skip).1 = len) ∧
      (0 ≤ len → len ≠ 64 →
        (razer_nari_send_control_msg E true len report skip).1 = - ( E.EIO : Int)) ∧
      (control_transfers (razer_nari_send_control_msg E true len report skip).2).length = 1 ∧
      (∀ alloc_ok : Bool,
        (control_transfers
          (razer_nari_send_control_msg E alloc_ok len report skip).2).length ≤ 1) := by
  have hmod : 0 ≤ len → len % 2 ^ 32 = len := fun h0 =>
    Int.emod_eq_of_lt h0 (by omega)
  have hpos : (0 : Int) < ( E.EIO : Int) := by exact_mod_cast hE
  rw [send_control_msg_result_eq]
  refine ⟨?_, ?_, ?_, ?_, ?_⟩
  · by_cases hneg : len < 0
    · simp only [hneg, if_true]
      constructor <;> intro h <;> omega
    · have h0 : 0 ≤ len := by omega
      rw [if_neg hneg, hmod h0]
      by_cases h64 : len = 64
      · simp [h64]
      · simp only [ne_eq, h64, not_false_eq_true, if_true, iff_false]
        omega
  · intro hneg
    simp [hneg]
  · intro h0 h64
    have hneg : ¬ len < 0 := by omega
    rw [if_neg hneg, hmod h0]
    simp [h64]
  · rw [send_control_msg_transfers]
    simp
  · intro alloc_ok
    rw [send_control_msg_transfers]
    cases alloc_ok <;> simp

theorem send_control_msg_result_witness :
    (razer_nari_send_control_msg linux_errno true 64
        (get_nari_brightness_request_report 0) 0).1 = 0 ∧
      (razer_nari_send_control_msg linux_errno true (-71)
        (get_nari_brightness_request_report 0) 0).1 = -71 ∧
      (razer_nari_send_control_msg linux_errno true 63
        (get_nari_brightness_request_report 0) 0).1 = - ( linux_errno.EIO : Int) ∧
      (control_transfers (razer_nari_send_control_msg linux_errno true 63
        (get_nari_brightness_request_report 0) 0).2).length = 1 :=
  ⟨(send_control_msg_result linux_errno (by decide) (get_nari_brightness_request_report 0) 0 64
      (by decide) (by decide)).1.2 rfl,
    (send_control_msg_result linux_errno (by decide) (get_nari_brightness_request_report 0) 0
      (-71) (by decide) (by decide)).2.1 (by decide),
    (send_control_msg_result linux_errno (by decide) (get_nari_brightness_request_report 0) 0 63
      (by decide) (by decide)).2.2.1 (by decide) (by decide),
    (send_control_msg_result linux_errno (by decide) (get_nari_brightness_request_report 0) 0 63
      (by decide) (by decide)).2.2.2.1⟩

/-! ## Result of the status poll -/

theorem send_request_report_msg_result (ret : Int) (report : List Nat)
    (device : razer_nari_device) :
    (razer_nari_send_request_report_msg ret report device).1 = if ret = 64 then 0 else ret := by
  by_cases h : ret = 64 <;>
    simp [razer_nari_send_request_report_msg, RAZER_NARI_REPORT_LEN, h]

theorem send_request_report_msg_nonzero (ret : Int) (hret : ret ≠ 0) (report : List Nat)
    (device : razer_nari_device) :
    (razer_nari_send_request_report_msg ret report device).1 = 0 ↔ ret = 64 := by
  rw [send_request_report_msg_result]
  by_cases h : ret = 64 <;> simp [h, hret]

/-- C4: at the returned length 0 the status poll
`razer_nari_send_request_report_msg` returns 0, the same result as for a
complete 64-byte report, although nothing was read and the device data is left
as it was. -/
theorem send_request_report_msg_zero_length :
    razer_nari_send_request_report_msg 0 (List.replicate 64 0) bound_device =
        (0, bound_device, [Event.hid_hw_raw_request 0x01 64]) ∧
      (razer_nari_send_request_report_msg 64 (List.replicate 64 0) bound_device).1 = 0 := by
  constructor <;> simp [razer_nari_send_request_report_msg, RAZER_NARI_REPORT_LEN]

/-! ## The static-colour write -/

theorem to_ssize_t_of_lt (count : Nat) (hcount : count < 2 ^ 63) :
    to_ssize_t count = (count : Int) := by
  have hmod : count % 2 ^ 64 = count := Nat.mod_eq_of_lt (by omega)
  unfold to_ssize_t
  rw [hmod, if_pos hcount]

theorem to_ssize_t_size_max : to_ssize_t (2 ^ 64 - 1) = -1 := by
  norm_num [to_ssize_t]

theorem to_ssize_t_three : to_ssize_t 3 = 3 := to_ssize_t_of_lt 3 (by norm_num)

theorem to_ssize_t_four : to_ssize_t 4 = 4 := to_ssize_t_of_lt 4 (by norm_num)

theorem char_round_trip (char_signed : Bool) (b : Nat) (hb : b < 256) :
    to_unsigned_short (char_value char_signed b) % 256 = b ∧
      to_unsigned_char (char_value char_signed b) % 256 = b := by
  cases char_signed <;> by_cases h : 128 ≤ b <;>
    simp [to_unsigned_short, to_unsigned_char, char_value, h] <;> omega

theorem color_report_arguments_length (r g b : Nat) :
    (get_nari_color_request_report r g b).arguments.length = 64 := by
  simp [get_nari_color_request_report_eq]

theorem static_write_invalid (E : Errno) (char_signed alloc_ok : Bool) (len : Int)
    (device : razer_nari_device) (buf : List Nat) (count : Nat)
    (h3 : count ≠ 3) (h4 : count ≠ 4) :
    razer_attr_write_matrix_effect_static E char_signed alloc_ok len device buf count =
      (- ( E.EINVAL : Int), device, []) := by
  simp [razer_attr_write_matrix_effect_static, h3, h4]

theorem static_write_three (E : Errno) (char_signed alloc_ok : Bool) (len : Int)
    (device : razer_nari_device) (p0 p1 p2 : Nat)
    (h0 : p0 < 256) (h1 : p1 < 256) (h2 : p2 < 256) :
    razer_attr_write_matrix_effect_static E char_signed alloc_ok len device [p0, p1, p2] 3 =
      (3, { device with lock := false },
        [Event.mutex_lock] ++
          (razer_nari_send_control_msg E alloc_ok len
            (get_nari_color_request_report p0 p1 p2) 0).2 ++ [Event.mutex_unlock]) := by
  have e0 := (char_round_trip char_signed p0 h0).1
  have e1 := (char_round_trip char_signed p1 h1).1
  have e2 := (char_round_trip char_signed p2 h2).1
  simp [razer_attr_write_matrix_effect_static, get_nari_color_request_report_eq, e0, e1, e2,
    Nat.mod_eq_of_lt h0, Nat.mod_eq_of_lt h1, Nat.mod_eq_of_lt h2, to_ssize_t_three]

theorem static_write_four (E : Errno) (char_signed alloc_ok : Bool) (len : Int)
    (device : razer_nari_device) (p0 p1 p2 p3 : Nat)
    (h0 : p0 < 256) (h1 : p1 < 256) (h2 : p2 < 256) (h3 : p3 < 256) :
    razer_attr_write_matrix_effect_static E char_signed alloc_ok len device [p0, p1, p2, p3] 4 =
      (4, { device with lock := false },
        [Event.mutex_lock] ++
          (razer_nari_send_control_msg E alloc_ok len
            ⟨(get_nari_color_request_report p0 p1 p2).arguments.set 12 p3, 64⟩ 0).2
          ++ [Event.mutex_unlock]) := by
  have e0 := (char_round_trip char_signed p0 h0).1
  have e1 := (char_round_trip char_signed p1 h1).1
  have e2 := (char_round_trip char_signed p2 h2).1
  have e3 := (char_round_trip char_signed p3 h3).2
  simp [razer_attr_write_matrix_effect_static, get_nari_color_request_report_eq, set_argument,
    e0, e1, e2, e3, Nat.mod_eq_of_lt h0, Nat.mod_eq_of_lt h1, Nat.mod_eq_of_lt h2,
    to_ssize_t_four]

theorem static_write_result (E : Errno) (char_signed alloc_ok : Bool) (len : Int)
    (device : razer_nari_device) (buf : List Nat) (count : Nat)
    (h : count = 3 ∨ count = 4) :
    (razer_attr_write_matrix_effect_static E char_signed alloc_ok len device buf count).1 =
      (count : Int) := by
  have hn : ¬ (count ≠ 3 ∧ count ≠ 4) := by omega
  have hconv : to_ssize_t count = (count : Int) := to_ssize_t_of_lt count (by omega)
  simp [razer_attr_write_matrix_effect_static, hn, hconv]

theorem effect_none_write_result (E : Errno) (alloc_ok : Bool) (len : Int)
    (device : razer_nari_device) (count : Nat) :
    (razer_attr_write_matrix_effect_none E alloc_ok len device count).1 = to_ssize_t count := by
  simp [razer_attr_write_matrix_effect_none]

theorem request_report_write_result (ret : Int) (report : List Nat)
    (device : razer_nari_device) (count : Nat) :
    (razer_attr_write_request_report ret report device count).1 = to_ssize_t count := by
  simp [razer_attr_write_request_report]

theorem control_transfers_locked (trace : List Event) :
    control_transfers ([Event.mutex_lock] ++ trace ++ [Event.mutex_unlock]) =
      control_transfers trace := by
  induction trace with
  | nil => simp [control_transfers]
  | cons e rest ih =>
    cases e <;> simp_all [control_transfers]

theorem static_write_colour_fields (E : Errno) (char_signed alloc_ok : Bool) (len : Int)
    (device : razer_nari_device) (buf : List Nat) (count : Nat) :
    (razer_attr_write_matrix_effect_static E char_signed alloc_ok len device buf count).2.1.red
        = device.red ∧
      (razer_attr_write_matrix_effect_static E char_signed alloc_ok len device buf
        count).2.1.green = device.green ∧
      (razer_attr_write_matrix_effect_static E char_signed alloc_ok len device buf
        count).2.1.blue = device.blue := by
  by_cases h : count ≠ 3 ∧ count ≠ 4 <;> simp [razer_attr_write_matrix_effect_static, h]

/-- C5 (as stated, refuted): on the sample device (colour fields zero) the
static-colour write of 10 20 30 with a complete 64-byte transfer is followed
by a static-colour read of 00 00 00, not of 10 20 30. -/
theorem static_read_after_successful_write :
    (razer_nari_send_control_msg linux_errno true 64
        (get_nari_color_request_report 0x10 0x20 0x30) 0).1 = 0 ∧
      razer_attr_read_matrix_effect_static
        (razer_attr_write_matrix_effect_static linux_errno true true 64 bound_device
          [0x10, 0x20, 0x30] 3).2.1 = ([0, 0, 0], 3) ∧
      (razer_attr_read_matrix_effect_static
        (razer_attr_write_matrix_effect_static linux_errno true true 64 bound_device
          [0x10, 0x20, 0x30] 3).2.1).1 ≠ [0x10, 0x20, 0x30] := by
  have hread : razer_attr_read_matrix_effect_static
      (razer_attr_write_matrix_effect_static linux_errno true true 64 bound_device
        [0x10, 0x20, 0x30] 3).2.1 = ([0, 0, 0], 3) := by
    obtain ⟨hr, hg, hb⟩ := static_write_colour_fields linux_errno true true 64 bound_device
      [0x10, 0x20, 0x30] 3
    simp only [razer_attr_read_matrix_effect_static, hr, hg, hb]
    rfl
  refine ⟨?_, hread, ?_⟩
  · rw [send_control_msg_result_eq]; decide
  · rw [hread]; decide

/-- C5 (amended): after the static-colour write, whatever the payload, the
count and the outcome of the transport, the static-colour read returns what it
returned before the write: the write does not touch the stored colour. -/
theorem static_write_keeps_colour (E : Errno) (char_signed alloc_ok : Bool) (len : Int)
    (device : razer_nari_device) (buf : List Nat) (count : Nat) :
    razer_attr_read_matrix_effect_static
        (razer_attr_write_matrix_effect_static E char_signed alloc_ok len device buf count).2.1 =
      razer_attr_read_matrix_effect_static device := by
  obtain ⟨hr, hg, hb⟩ := static_write_colour_fields E char_signed alloc_ok len device buf count
  simp only [razer_attr_read_matrix_effect_static, hr, hg, hb]

/-- C6 (as stated, refuted): with the control transfer failing with -71 the
helper reports -71, yet the static-colour write returns 3 and the effect-none
write returns the byte count 1. -/
theorem setters_discard_transport_error :
    (razer_nari_send_control_msg linux_errno true (-71)
        (get_nari_color_request_report 1 2 3) 0).1 = -71 ∧
      (razer_attr_write_matrix_effect_static linux_errno true true (-71) bound_device
        [1, 2, 3] 3).1 = 3 ∧
      (razer_attr_write_matrix_effect_static linux_errno true true (-71) bound_device
        [1, 2, 3] 3).1 ≠
        (razer_nari_send_control_msg linux_errno true (-71)
          (get_nari_color_request_report 1 2 3) 0).1 ∧
      (razer_attr_write_matrix_effect_none linux_errno true (-71) bound_device 1).1 = 1 := by
  have hs : (razer_attr_write_matrix_effect_static linux_errno true true (-71) bound_device
      [1, 2, 3] 3).1 = 3 := by
    rw [static_write_three _ _ _ _ _ _ _ _ (by decide) (by decide) (by decide)]
  have ht : (razer_nari_send_control_msg linux_errno true (-71)
      (get_nari_color_request_report 1 2 3) 0).1 = -71 := by
    rw [send_control_msg_result_eq]; decide
  refine ⟨ht, hs, ?_, ?_⟩
  · rw [hs, ht]; decide
  · rw [effect_none_write_result, to_ssize_t_of_lt 1 (by norm_num)]
    rfl

/-- C6 (amended): for a byte count below 2^63 (one that the `ssize_t` result
holds unchanged) the effect-none write, and the static-colour write called
with a count of 3 or 4, return the byte count whatever the outcome of the
transport: the result of `razer_nari_send_control_msg` is not returned. -/
theorem setters_return_count (E : Errno) (char_signed alloc_ok : Bool) (len : Int)
    (device : razer_nari_device) (buf : List Nat) (count : Nat) (hcount : count < 2 ^ 63) :
    (razer_attr_write_matrix_effect_none E alloc_ok len device count).1 = (count : Int) ∧
      (count = 3 ∨ count = 4 →
        (razer_attr_write_matrix_effect_static E char_signed alloc_ok len device buf count).1
          = (count : Int)) := by
  constructor
  · rw [effect_none_write_result, to_ssize_t_of_lt count hcount]
  · intro h
    exact static_write_result E char_signed alloc_ok len device buf count h

theorem setters_return_count_witness :
    (1 : Nat) < 2 ^ 63 ∧ (4 : Nat) < 2 ^ 63 ∧
      (razer_attr_write_matrix_effect_none linux_errno true (-71) bound_device 1).1 = 1 ∧
      (razer_attr_write_matrix_effect_static linux_errno true true (-71) bound_device
        [1, 2, 3, 9] 4).1 = 4 :=
  ⟨by norm_num, by norm_num,
    (setters_return_count linux_errno true true (-71) bound_device [] 1 (by norm_num)).1,
    (setters_return_count linux_errno true true (-71) bound_device [1, 2, 3, 9] 4
      (by norm_num)).2 (Or.inr rfl)⟩

/-- C7: for payload bytes in [0,255] and either signedness of `char`, the
frame handed to the control transfer by the static-colour write of three
bytes is the argument array of `get_nari_color_request_report p0 p1 p2`, that
is FF 0A 00 FF 04 12 F1 05 72 p0 p1 p2 00 and zeroes; for four bytes it is
that frame with byte 12 set to `p3`. -/
theorem static_write_frame (E : Errno) (char_signed alloc_ok : Bool) (len : Int)
    (device : razer_nari_device) (p0 p1 p2 p3 : Nat)
    (h0 : p0 < 256) (h1 : p1 < 256) (h2 : p2 < 256) (h3 : p3 < 256) :
    control_transfers
        (razer_attr_write_matrix_effect_static E char_signed true len device
          [p0, p1, p2] 3).2.2 = [(get_nari_color_request_report p0 p1 p2).arguments] ∧
      (∀ frame ∈ control_transfers
          (razer_attr_write_matrix_effect_static E char_signed alloc_ok len device
            [p0, p1, p2] 3).2.2,
        frame = (get_nari_color_request_report p0 p1 p2).arguments) ∧
      (get_nari_color_request_report p0 p1 p2).arguments =
        [0xFF, 0x0A, 0x00, 0xFF, 0x04, 0x12, 0xF1, 0x05, 0x72, p0, p1, p2, 0]
          ++ List.replicate 51 0 ∧
      control_transfers
        (razer_attr_write_matrix_effect_static E char_signed true len device
          [p0, p1, p2, p3] 4).2.2 =
        [(get_nari_color_request_report p0 p1 p2).arguments.set 12 p3] ∧
      (∀ frame ∈ control_transfers
          (razer_attr_write_matrix_effect_static E char_signed alloc_ok len device
            [p0, p1, p2, p3] 4).2.2,
        frame = (get_nari_color_request_report p0 p1 p2).arguments.set 12 p3) ∧
      (get_nari_color_request_report p0 p1 p2).arguments.set 12 p3 =
        [0xFF, 0x0A, 0x00, 0xFF, 0x04, 0x12, 0xF1, 0x05, 0x72, p0, p1, p2, p3]
          ++ List.replicate 51 0 := by
  have hlen3 : List.take 64 (get_nari_color_request_report p0 p1 p2).arguments =
      (get_nari_color_request_report p0 p1 p2).arguments :=
    List.take_of_length_le (by rw [color_report_arguments_length])
  have hlen4 : List.take 64 ((get_nari_color_request_report p0 p1 p2).arguments.set 12 p3) =
      (get_nari_color_request_report p0 p1 p2).arguments.set 12 p3 :=
    List.take_of_length_le (by rw [List.length_set, color_report_arguments_length])
  have hargs : (get_nari_color_request_report p0 p1 p2).arguments =
      [0xFF, 0x0A, 0x00, 0xFF, 0x04, 0x12, 0xF1, 0x05, 0x72, p0, p1, p2]
        ++ List.replicate 52 0 := by
    rw [get_nari_color_request_report_eq, Nat.mod_eq_of_lt h0, Nat.mod_eq_of_lt h1,
      Nat.mod_eq_of_lt h2]
  refine ⟨?_, ?_, ?_, ?_, ?_, ?_⟩
  · rw [static_write_three E char_signed true len device p0 p1 p2 h0 h1 h2,
      control_transfers_locked, send_control_msg_transfers, hlen3]
    rfl
  · intro frame hframe
    rw [static_write_three E char_signed alloc_ok len device p0 p1 p2 h0 h1 h2,
      control_transfers_locked, send_control_msg_transfers, hlen3] at hframe
    cases alloc_ok <;> simp_all
  · rw [hargs]; rfl
  · rw [static_write_four E char_signed true len device p0 p1 p2 p3 h0 h1 h2 h3,
      control_transfers_locked, send_control_msg_transfers, hlen4]
    rfl
  · intro frame hframe
    rw [static_write_four E char_signed alloc_ok len device p0 p1 p2 p3 h0 h1 h2 h3,
      control_transfers_locked, send_control_msg_transfers, hlen4] at hframe
    cases alloc_ok <;> simp_all
  · rw [hargs]; rfl

theorem static_write_frame_witness :
    control_transfers
        (razer_attr_write_matrix_effect_static linux_errno true true 64 bound_device
          [0x10, 0x80, 0xFF] 3).2.2 = [(get_nari_color_request_report 0x10 0x80 0xFF).arguments] ∧
      (∀ frame ∈ control_transfers
          (razer_attr_write_matrix_effect_static linux_errno true true 64 bound_device
            [0x10, 0x80, 0xFF] 3).2.2,
        frame = (get_nari_color_request_report 0x10 0x80 0xFF).arguments) ∧
      (get_nari_color_request_report 0x10 0x80 0xFF).arguments =
        [0xFF, 0x0A, 0x00, 0xFF, 0x04, 0x12, 0xF1, 0x05, 0x72, 0x10, 0x80, 0xFF, 0]
          ++ List.replicate 51 0 ∧
      control_transfers
        (razer_attr_write_matrix_effect_static linux_errno true true 64 bound_device
          [0x10, 0x80, 0xFF, 0x90] 4).2.2 =
        [(get_nari_color_request_report 0x10 0x80 0xFF).arguments.set 12 0x90] ∧
      (∀ frame ∈ control_transfers
          (razer_attr_write_matrix_effect_static linux_errno true true 64 bound_device
            [0x10, 0x80, 0xFF, 0x90] 4).2.2,
        frame = (get_nari_color_request_report 0x10 0x80 0xFF).arguments.set 12 0x90) ∧
      (get_nari_color_request_report 0x10 0x80 0xFF).arguments.set 12 0x90 =
        [0xFF, 0x0A, 0x00, 0xFF, 0x04, 0x12, 0xF1, 0x05, 0x72, 0x10, 0x80, 0xFF, 0x90]
          ++ List.replicate 51 0 :=
  static_write_frame linux_errno true true 64 bound_device 0x10 0x80 0xFF 0x90
    (by decide) (by decide) (by decide) (by decide)

/-- C8: a static-colour write whose count is neither 3 nor 4 returns
`-EINVAL`, makes no call to the kernel (no transfer, no lock) and leaves the
device data as it was; with a count of 3 or 4 the result is the count, which
is not `-EINVAL`. -/
theorem static_write_length_check (E : Errno) (char_signed alloc_ok : Bool) (len : Int)
    (device : razer_nari_device) (buf : List Nat) (count : Nat) :
    (count ≠ 3 ∧ count ≠ 4 →
        razer_attr_write_matrix_effect_static E char_signed alloc_ok len device buf count =
          (- ( E.EINVAL : Int), device, [])) ∧
      (count = 3 ∨ count = 4 →
        (razer_attr_write_matrix_effect_static E char_signed alloc_ok len device buf count).1
            = (count : Int) ∧
          (razer_attr_write_matrix_effect_static E char_signed alloc_ok len device buf count).1
            ≠ - ( E.EINVAL : Int)) := by
  constructor
  · intro h
    exact static_write_invalid E char_signed alloc_ok len device buf count h.1 h.2
  · intro h
    have hres : (razer_attr_write_matrix_effect_static E char_signed alloc_ok len device buf
        count).1 = (count : Int) :=
      static_write_result E char_signed alloc_ok len device buf count h
    refine ⟨hres, ?_⟩
    rw [hres]
    omega

theorem static_write_length_check_witness :
    razer_attr_write_matrix_effect_static linux_errno true true 64 bound_device
        [1, 2, 3, 4, 5] 5 = (- ( linux_errno.EINVAL : Int), bound_device, []) ∧
      (razer_attr_write_matrix_effect_static linux_errno true true 64 bound_device
          [1, 2, 3] 3).1 = 3 ∧
      (razer_attr_write_matrix_effect_static linux_errno true true 64 bound_device
          [1, 2, 3] 3).1 ≠ - ( linux_errno.EINVAL : Int) :=
  ⟨(static_write_length_check linux_errno true true 64 bound_device [1, 2, 3, 4, 5] 5).1
      ⟨by decide, by decide⟩,
    (static_write_length_check linux_errno true true 64 bound_device [1, 2, 3] 3).2
      (Or.inl rfl)⟩

/-! ## The settle delay -/

/-- C9: when the control transfer is reached, `razer_nari_send_control_msg`
calls `msleep (report.length * 15)` right after the transfer for every skip
value other than 1 (so for the flag value 0), and makes no `msleep` call for
the skip value 1; with `length` an `unsigned char` the product is at most
3825 and is not reduced by the conversion to `unsigned int`; for the reports
of the three builders the delay is 960. -/
theorem settle_delay (E : Errno) (len : Int) (report : razer_nari_request_report)
    (hlength : report.length < 256) (skip : Nat) :
    (skip ≠ 1 →
        (razer_nari_send_control_msg E true len report skip).2 =
          [Event.usb_control_msg 0x03ff 5 (report.arguments.take 64) 64,
            Event.msleep (report.length * 15)]) ∧
      (skip = 1 →
        (razer_nari_send_control_msg E true len report skip).2 =
          [Event.usb_control_msg 0x03ff 5 (report.arguments.take 64) 64]) ∧
      settle_delays (razer_nari_send_control_msg E true len report skip).2 =
        (if skip = 1 then [] else [report.length * 15]) ∧
      report.length * 15 ≤ 3825 ∧
      (∀ r g b : Nat, settle_delays
        (razer_nari_send_control_msg E true len (get_nari_color_request_report r g b) 0).2
          = [960]) ∧
      (∀ b : Nat, settle_delays
        (razer_nari_send_control_msg E true len (get_nari_brightness_request_report b) 0).2
          = [960]) ∧
      settle_delays (razer_nari_send_control_msg E true len get_nari_request_report 0).2
        = [960] := by
  have hmod : (report.length * 15) % 2 ^ 32 = report.length * 15 :=
    Nat.mod_eq_of_lt (by omega)
  refine ⟨?_, ?_, ?_, by omega, ?_, ?_, ?_⟩
  · intro h
    rw [send_control_msg_trace_eq, if_pos h, hmod]
  · intro h
    rw [send_control_msg_trace_eq, if_neg (by simpa using h)]
  · rw [send_control_msg_trace_eq]
    by_cases h : skip = 1
    · simp [h, settle_delays]
    · simp [h, settle_delays]
      omega
  · intro r g b
    rw [send_control_msg_trace_eq, get_nari_color_request_report_eq]
    simp [settle_delays]
  · intro b
    rw [send_control_msg_trace_eq, get_nari_brightness_request_report_eq]
    simp [settle_delays]
  · rw [send_control_msg_trace_eq, get_nari_request_report_length]
    simp [settle_delays]

theorem settle_delay_witness :
    (get_nari_brightness_request_report 0).length < 256 ∧
      (razer_nari_send_control_msg linux_errno true 64
          (get_nari_brightness_request_report 0) 0).2 =
        [Event.usb_control_msg 0x03ff 5
            ((get_nari_brightness_request_report 0).arguments.take 64) 64,
          Event.msleep ((get_nari_brightness_request_report 0).length * 15)] ∧
      (razer_nari_send_control_msg linux_errno true 64
          (get_nari_brightness_request_report 0) 1).2 =
        [Event.usb_control_msg 0x03ff 5
            ((get_nari_brightness_request_report 0).arguments.take 64) 64] :=
  ⟨by rw [get_nari_brightness_request_report_eq]; decide,
    (settle_delay linux_errno 64 (get_nari_brightness_request_report 0)
      (by rw [get_nari_brightness_request_report_eq]; decide) 0).1 (by decide),
    (settle_delay linux_errno 64 (get_nari_brightness_request_report 0)
      (by rw [get_nari_brightness_request_report_eq]; decide) 1).2.1 rfl⟩

/-! ## The mutex around the exchanges -/

theorem locked_trace_guarded (trace : List Event)
    (hlock : ∀ e ∈ trace, e ≠ Event.mutex_lock ∧ e ≠ Event.mutex_unlock) :
    exchanges_guarded false ([Event.mutex_lock] ++ trace ++ [Event.mutex_unlock]) = true ∧
      guard_after false ([Event.mutex_lock] ++ trace ++ [Event.mutex_unlock]) = false := by
  have key : ∀ t : List Event, (∀ e ∈ t, e ≠ Event.mutex_lock ∧ e ≠ Event.mutex_unlock) →
      exchanges_guarded true (t ++ [Event.mutex_unlock]) = true ∧
        guard_after true (t ++ [Event.mutex_unlock]) = false := by
    intro t
    induction t with
    | nil => intro _; simp [exchanges_guarded, guard_after]
    | cons e rest ih =>
      intro h
      have hrest := ih (fun x hx => h x (List.mem_cons_of_mem e hx))
      have he := h e (List.mem_cons_self e rest)
      cases e <;> simp_all [exchanges_guarded, guard_after]
  simpa [exchanges_guarded, guard_after] using key trace hlock

theorem send_control_msg_no_lock (E : Errno) (alloc_ok : Bool) (len : Int)
    (report : razer_nari_request_report) (skip : Nat) :
    ∀ e ∈ (razer_nari_send_control_msg E alloc_ok len report skip).2,
      e ≠ Event.mutex_lock ∧ e ≠ Event.mutex_unlock := by
  cases alloc_ok
  · simp [razer_nari_send_control_msg]
  · rw [send_control_msg_trace_eq]
    by_cases h : skip = 1 <;> simp [h]

theorem send_request_report_msg_trace (ret : Int) (report : List Nat)
    (device : razer_nari_device) :
    (razer_nari_send_request_report_msg ret report device).2.2 =
      [Event.hid_hw_raw_request 0x01 64] := by
  by_cases h : ret = 64 <;>
    simp [razer_nari_send_request_report_msg, RAZER_NARI_REPORT_LEN, h]

theorem effect_none_write_guarded (E : Errno) (alloc_ok : Bool) (len : Int)
    (device : razer_nari_device) (count : Nat) :
    exchanges_guarded false
        (razer_attr_write_matrix_effect_none E alloc_ok len device count).2.2 = true ∧
      guard_after false
        (razer_attr_write_matrix_effect_none E alloc_ok len device count).2.2 = false :=
  locked_trace_guarded _ (send_control_msg_no_lock E alloc_ok len _ 0)

theorem static_write_guarded (E : Errno) (char_signed alloc_ok : Bool) (len : Int)
    (device : razer_nari_device) (buf : List Nat) (count : Nat) :
    exchanges_guarded false
        (razer_attr_write_matrix_effect_static E char_signed alloc_ok len device buf
          count).2.2 = true ∧
      guard_after false
        (razer_attr_write_matrix_effect_static E char_signed alloc_ok len device buf
          count).2.2 = false := by
  by_cases h : count ≠ 3 ∧ count ≠ 4
  · rw [static_write_invalid E char_signed alloc_ok len device buf count h.1 h.2]
    simp [exchanges_guarded, guard_after]
  · simp only [razer_attr_write_matrix_effect_static, h, if_false]
    exact locked_trace_guarded _ (send_control_msg_no_lock E alloc_ok len _ 0)

theorem request_report_write_guarded (ret : Int) (report : List Nat)
    (device : razer_nari_device) (count : Nat) :
    exchanges_guarded false
        (razer_attr_write_request_report ret report device count).2.2 = true ∧
      guard_after false
        (razer_attr_write_request_report ret report device count).2.2 = false := by
  simp only [razer_attr_write_request_report, send_request_report_msg_trace]
  simp [exchanges_guarded, guard_after, is_exchange]

/-- C10: in `razer_nari_probe`, with the device data allocated, the device
files created and `hid_parse` and `hid_hw_start` returning 0, the whole trace
is the GET_REPORT feature request of the status poll: the request is made
while the mutex is not held, with no `mutex_lock` before it. -/
theorem probe_status_poll_unguarded :
    (razer_nari_probe linux_errno true USB_INTERFACE_PROTOCOL_NONE 0x1532
        USB_DEVICE_ID_RAZER_NARI_ULTIMATE_WIRELESS true 0 0 64 (List.replicate 64 0)).2.2 =
        [Event.hid_hw_raw_request 0x01 64] ∧
      exchanges_guarded false
        (razer_nari_probe linux_errno true USB_INTERFACE_PROTOCOL_NONE 0x1532
          USB_DEVICE_ID_RAZER_NARI_ULTIMATE_WIRELESS true 0 0 64 (List.replicate 64 0)).2.2 =
        false := by
  have htrace : (razer_nari_probe linux_errno true USB_INTERFACE_PROTOCOL_NONE 0x1532
      USB_DEVICE_ID_RAZER_NARI_ULTIMATE_WIRELESS true 0 0 64 (List.replicate 64 0)).2.2 =
      [Event.hid_hw_raw_request 0x01 64] := by
    simp [razer_nari_probe, razer_nari_init, USB_INTERFACE_PROTOCOL_NONE,
      send_request_report_msg_trace]
  rw [htrace]
  exact ⟨rfl, rfl⟩

end RazerNari
